import Mathlib

/-!
Verification development for the "Bite Me Buddy Admin" order-management
admin panel (Flask + psycopg + PostgreSQL).

The repository's behaviour is shallowly embedded here:

* Python dictionary values are modelled by the inductive `Val`;
* SQL timestamps are modelled by the record `PyDateTime` (naive wall-clock
  fields, microsecond precision, as both Python `datetime` and the
  PostgreSQL `TIMESTAMP` column type store them);
* the relational store is the record `DB`, one list per table, with the
  column types of the admin-owned tables taken from the `CREATE TABLE`
  statements in `models.py` (`init_admin_tables`);
* each repository function of `models.py`, the chart shaper of `utils.py`
  and the relevant route handlers of `app.py` become executable Lean
  functions over `DB`.  A `try/except` block around database work is
  modelled by an explicit fault parameter: `none` means no data-access
  fault occurs, `some e` means some statement of the block raises an
  exception whose `str(e)` is `e`, which lands in the `except` branch.
  For `update_order_status`, whose transactional behaviour is claimed,
  the fault parameter distinguishes the statement that raises
  (`UpdFault`); uncommitted writes are buffered and only applied at
  commit, mirroring psycopg's connection context manager, which commits
  on normal exit and rolls back when an exception escapes the block.
-/

/-! ## Python-style strings -/

/-- The whitespace characters Python's `str.strip()` removes. -/
def pySpace (c : Char) : Bool :=
  c = ' ' || c = '\t' || c = '\n' || c = '\x0b' || c = '\x0c' || c = '\r'

/-- Python `str.strip()`: drop leading and trailing whitespace. -/
def pyStrip (s : String) : String :=
  String.mk (((s.data.dropWhile pySpace).reverse.dropWhile pySpace).reverse)

/-- ASCII lower-casing, as Python `str.lower()` acts on the ASCII strings
this repository handles. -/
def pyLower (s : String) : String :=
  String.mk (s.data.map Char.toLower)

/-- One step of Python `str.title()`: a letter is upper-cased when the
previous character is not a letter, lower-cased otherwise; non-letters
pass through and reset the word boundary. -/
def pyTitleGo : Bool → List Char → List Char
  | _, [] => []
  | prevAlpha, c :: cs =>
    if c.isAlpha then
      (if prevAlpha then c.toLower else c.toUpper) :: pyTitleGo true cs
    else
      c :: pyTitleGo false cs

/-- Python `str.title()` (ASCII): capitalise the first letter of every
maximal run of letters, lower-case the rest.  In particular an underscore
starts a new word: `pyTitle "unknown_status" = "Unknown_Status"`. -/
def pyTitle (s : String) : String :=
  String.mk (pyTitleGo false s.data)

/-- Whether `needle` occurs as a substring of `hay` (both already folded by
the caller when the match is case-insensitive, as SQL `ILIKE` with a
pattern of the shape percent-text-percent is). -/
def strContains (hay needle : String) : Bool :=
  (List.range (hay.data.length + 1)).any
    (fun i => needle.data.isPrefixOf (hay.data.drop i))

/-- SQL `column ILIKE '%q%'`: case-insensitive containment. -/
def ilikeContains (hay q : String) : Bool :=
  strContains (pyLower hay) (pyLower q)

/-! ## Naive timestamps (Python `datetime` / SQL `TIMESTAMP`) -/

/-- A naive wall-clock timestamp: the fields Python's `datetime` and the
`TIMESTAMP` column type carry. -/
structure PyDateTime where
  year : Nat
  month : Nat
  day : Nat
  hour : Nat
  minute : Nat
  second : Nat
  micro : Nat
deriving Repr, DecidableEq

/-- The fields of a timestamp, most significant first: timestamps compare
lexicographically on this list. -/
def PyDateTime.fields (t : PyDateTime) : List Nat :=
  [t.year, t.month, t.day, t.hour, t.minute, t.second, t.micro]

/-- Lexicographic less-or-equal on equally long `Nat` lists. -/
def lexLe : List Nat → List Nat → Bool
  | [], _ => true
  | _ :: _, [] => false
  | a :: as, b :: bs =>
    if a < b then true
    else if a = b then lexLe as bs
    else false

/-- Timestamp order, as SQL compares `TIMESTAMP` values. -/
def dtLe (a b : PyDateTime) : Bool :=
  lexLe a.fields b.fields

/-- SQL `x BETWEEN lo AND hi` on timestamps (inclusive at both ends). -/
def dtBetween (t lo hi : PyDateTime) : Bool :=
  dtLe lo t && dtLe t hi

/-- Whether a year is a Gregorian leap year. -/
def isLeapYear (y : Nat) : Bool :=
  (y % 4 = 0 && y % 100 ≠ 0) || y % 400 = 0

/-- Days in a month of a year. -/
def daysInMonth (y m : Nat) : Nat :=
  if m = 2 then (if isLeapYear y then 29 else 28)
  else if m = 4 || m = 6 || m = 9 || m = 11 then 30
  else 31

/-- The Asia/Kolkata offset applied to a stored-UTC timestamp: add 5 hours
30 minutes, carrying into the day, month and year (IST has no daylight
saving, the offset is fixed).  This is the semantics of the SQL expression
`ts AT TIME ZONE 'UTC' AT TIME ZONE 'Asia/Kolkata'` used in `models.py`
and of `config.to_ist` on a naive timestamp. -/
def istOfUtc (t : PyDateTime) : PyDateTime :=
  let m0 := t.minute + 30
  let h0 := t.hour + 5 + m0 / 60
  let m1 := m0 % 60
  if h0 < 24 then
    { t with hour := h0, minute := m1 }
  else
    let h1 := h0 - 24
    if t.day < daysInMonth t.year t.month then
      { t with day := t.day + 1, hour := h1, minute := m1 }
    else if t.month < 12 then
      { t with month := t.month + 1, day := 1, hour := h1, minute := m1 }
    else
      { year := t.year + 1, month := 1, day := 1, hour := h1, minute := m1,
        second := t.second, micro := t.micro }

/-- The calendar date of a timestamp. -/
def PyDateTime.ymd (t : PyDateTime) : Nat × Nat × Nat :=
  (t.year, t.month, t.day)

/-- Subtract one day from a timestamp, borrowing from the month and year. -/
def dtSubOneDay (t : PyDateTime) : PyDateTime :=
  if 1 < t.day then { t with day := t.day - 1 }
  else if 1 < t.month then
    { t with month := t.month - 1, day := daysInMonth t.year (t.month - 1) }
  else
    { t with year := t.year - 1, month := 12, day := 31 }

/-- The inverse Asia/Kolkata offset: subtract 5 hours 30 minutes from a
wall-clock value, borrowing from the day, month and year.  Interpreting a
naive value as IST wall clock (`naive AT TIME ZONE 'Asia/Kolkata'`) yields
the instant whose UTC wall clock is this; likewise an IST-aware Python
datetime binds as the instant whose UTC wall clock is this. -/
def utcOfIst (t : PyDateTime) : PyDateTime :=
  let totalMin := t.hour * 60 + t.minute
  if 330 ≤ totalMin then
    { t with hour := (totalMin - 330) / 60, minute := (totalMin - 330) % 60 }
  else
    let m2 := totalMin + 1440 - 330
    let d := dtSubOneDay t
    { d with hour := m2 / 60, minute := m2 % 60 }

/-- Python `dt.replace(hour=0, minute=0, second=0, microsecond=0)`:
midnight of the timestamp's day. -/
def midnightOf (t : PyDateTime) : PyDateTime :=
  { t with hour := 0, minute := 0, second := 0, micro := 0 }

/-- Python `dt.replace(day=1, hour=0, minute=0, second=0, microsecond=0)`:
midnight of the first of the timestamp's month. -/
def firstOfMonth (t : PyDateTime) : PyDateTime :=
  { t with day := 1, hour := 0, minute := 0, second := 0, micro := 0 }

/-- `datetime.min`: the smallest Python datetime, year 1. -/
def pyDatetimeMin : PyDateTime :=
  { year := 1, month := 1, day := 1, hour := 0, minute := 0, second := 0, micro := 0 }

/-- Subtract `k` days from a timestamp (`now - timedelta(days=k)`). -/
def dtSubDays (t : PyDateTime) : Nat → PyDateTime
  | 0 => t
  | k + 1 => dtSubOneDay (dtSubDays t k)

/-! ## Python values -/

/-- A Python value as it appears in the dictionary rows this application
passes around: `None`, booleans, integers, strings, `datetime` objects,
lists and (insertion-ordered) dictionaries. -/
inductive Val where
  | none
  | bool (b : Bool)
  | int (n : Int)
  | str (s : String)
  | dt (t : PyDateTime)
  | list (xs : List Val)
  | dict (kvs : List (String × Val))

/-- A dictionary row as `psycopg.rows.dict_row` returns one. -/
abbrev PyDict := List (String × Val)

/-- Python dictionary lookup, `d[k]` as an `Option`. -/
def dictFind (d : PyDict) (k : String) : Option Val :=
  (d.find? (fun kv => kv.1 = k)).map Prod.snd

/-- Python `d.get(k, default)`. -/
def dictGet (d : PyDict) (k : String) (default : Val) : Val :=
  (dictFind d k).getD default

/-- Python `d[k] = v`: update the value in place when the key exists,
append the pair otherwise (dictionaries preserve insertion order). -/
def dictSet (d : PyDict) (k : String) (v : Val) : PyDict :=
  if (d.find? (fun kv => kv.1 = k)).isSome then
    d.map (fun kv => if kv.1 = k then (kv.1, v) else kv)
  else
    d ++ [(k, v)]

/-- Python truthiness of a value (`if x:`). -/
def pyTruthy : Val → Bool
  | .none => false
  | .bool b => b
  | .int n => n ≠ 0
  | .str s => s ≠ ""
  | .dt _ => true
  | .list xs => ¬ xs.isEmpty
  | .dict kvs => ¬ kvs.isEmpty

/-- Python `a or b` (the value of `a` when truthy, else the value of `b`). -/
def pyOr (a b : Val) : Val :=
  if pyTruthy a then a else b

/-- Digits of a natural number, most significant first. -/
def natDigits (n : Nat) : List Char :=
  (Nat.toDigits 10 n)

/-- Parse a non-empty all-digit character list as a natural number. -/
def parseDigits : List Char → Option Nat
  | [] => Option.none
  | cs =>
    if cs.all Char.isDigit then
      some (cs.foldl (fun acc c => acc * 10 + (c.toNat - 48)) 0)
    else
      Option.none

/-- Parse an optionally signed decimal string (with optional fractional
part) as an exact rational, after Python-style stripping: the inputs
`float()` accepts that this application can produce.  Exponents, infinities
and `nan` are not modelled; no claim of this development depends on them. -/
def parseDecimal (s : String) : Option Rat :=
  let cs := (pyStrip s).data
  let (neg, cs) := match cs with
    | '-' :: rest => (true, rest)
    | '+' :: rest => (false, rest)
    | _ => (false, cs)
  let intPart := cs.takeWhile (fun c => c ≠ '.')
  let rest := cs.dropWhile (fun c => c ≠ '.')
  let go (q : Rat) : Option Rat := some (if neg then -q else q)
  match rest with
  | [] => (parseDigits intPart).bind (fun n => go n)
  | _ :: frac =>
    if intPart.isEmpty && frac.isEmpty then Option.none
    else
      let ip : Option Nat := if intPart.isEmpty then some 0 else parseDigits intPart
      let fp : Option Nat := if frac.isEmpty then some 0 else parseDigits frac
      ip.bind (fun i => fp.map (fun f =>
        let q : Rat := (i : Rat) + (f : Rat) / ((10 : Rat) ^ frac.length)
        if neg then -q else q))

/-- Python `float(x)` on this application's values, `none` meaning the call
raises (`TypeError`/`ValueError`): numbers convert, numeric strings parse,
everything else raises. -/
def pyFloat : Val → Option Rat
  | .int n => some (n : Rat)
  | .bool b => some (if b then 1 else 0)
  | .str s => parseDecimal s
  | _ => Option.none

/-- Python `str(x)` for the values that reach it in this code base. -/
def pyStr : Val → String
  | .none => "None"
  | .bool b => if b then "True" else "False"
  | .int n => toString n
  | .str s => s
  | .dt t => toString t.year ++ "-" ++ toString t.month ++ "-" ++ toString t.day
  | .list _ => "[...]"
  | .dict _ => "{...}"

/-! ## The relational store

The `orders`, `order_items`, `payments`, `users`, `addresses`, `services`
and `menu` tables belong to the customer-facing application; their rows are
modelled with the columns this admin panel's queries read.  The
`order_logs` table is owned by this repository and created by
`init_admin_tables` in `models.py`; its column types there are
`order_id INTEGER`, `admin_id INTEGER`, `action VARCHAR(50)`,
`details TEXT`, `old_status VARCHAR(50)`, `new_status VARCHAR(50)`,
`created_at TIMESTAMP DEFAULT CURRENT_TIMESTAMP`, `log_id SERIAL`. -/

/-- A row of the `orders` table. -/
structure Order where
  order_id : Nat
  user_id : Option Nat
  user_name : String
  user_phone : String
  user_email : String
  total_amount : Int
  payment_mode : String
  delivery_location : String
  delivery_date : Option PyDateTime
  status : String
  order_date : PyDateTime
deriving Repr, DecidableEq

/-- A row of the `order_items` table. -/
structure OrderItem where
  order_item_id : Nat
  order_id : Nat
  item_type : String
  item_id : Nat
  item_name : String
  item_photo : Option String
  quantity : Int
  price : Int
  total : Int
deriving Repr, DecidableEq

/-- A row of the `payments` table. -/
structure Payment where
  payment_id : Nat
  order_id : Nat
  payment_status : String
  transaction_id : Option String
  razorpay_order_id : Option String
  razorpay_payment_id : Option String
  razorpay_signature : Option String
  amount : Int
  payment_date : Option PyDateTime
deriving Repr, DecidableEq

/-- A row of the `users` table. -/
structure User where
  id : Nat
  full_name : String
  phone : String
  email : String
  created_at : PyDateTime
  last_login : Option PyDateTime
deriving Repr, DecidableEq

/-- A row of the `addresses` table. -/
structure Address where
  address_id : Nat
  user_id : Nat
  address_line1 : String
  city : String
  state : String
  is_default : Bool
  latitude : Option String
  longitude : Option String
deriving Repr, DecidableEq

/-- A row of the `services` or `menu` catalog tables (the columns the
admin panel's order-detail query reads). -/
structure CatalogItem where
  id : Nat
  name : String
  description : String
deriving Repr, DecidableEq

/-- A row of the admin-owned `order_logs` table.  `admin_id` is an
`INTEGER` column, so it holds an integer or NULL, never a string. -/
structure OrderLog where
  log_id : Nat
  order_id : Nat
  admin_id : Option Int
  action : String
  details : Option String
  old_status : Option String
  new_status : Option String
  created_at : PyDateTime
deriving Repr, DecidableEq

/-- The database reachable through `get_db_connection()`: one list per
table, the `order_logs` SERIAL sequence counter, and the server clock that
fills `created_at DEFAULT CURRENT_TIMESTAMP`. -/
structure DB where
  orders : List Order
  order_items : List OrderItem
  payments : List Payment
  users : List User
  addresses : List Address
  services : List CatalogItem
  menu : List CatalogItem
  order_logs : List OrderLog
  next_log_id : Nat
  clock : PyDateTime
deriving Repr, DecidableEq

/-- `SELECT status FROM orders WHERE order_id = %s` with `fetchone()`:
the first matching row, if any. -/
def findOrder (db : DB) (oid : Nat) : Option Order :=
  (db.orders.filter (fun o => o.order_id = oid)).head?

/-- The items of one order. -/
def itemsOf (db : DB) (oid : Nat) : List OrderItem :=
  db.order_items.filter (fun oi => oi.order_id = oid)

/-- The payments of one order. -/
def paymentsOf (db : DB) (oid : Nat) : List Payment :=
  db.payments.filter (fun p => p.order_id = oid)

/-! ## Column typing of the audit-log insert

PostgreSQL reads a bound string parameter headed for an `INTEGER` column
as an integer literal: optional surrounding spaces, an optional sign, then
decimal digits; anything else (such as the admin username `"admin"`)
raises `invalid input syntax for type integer` and aborts the statement.
A string bound to a `VARCHAR(50)` column longer than 50 characters raises
`value too long for type character varying(50)`. -/

/-- PostgreSQL's reading of a text parameter as an `int4` value. -/
def parsePgInt (s : String) : Option Int :=
  match (pyStrip s).data with
  | '-' :: ds => (parseDigits ds).map (fun n => -(n : Int))
  | '+' :: ds => (parseDigits ds).map (fun n => (n : Int))
  | ds => (parseDigits ds).map (fun n => (n : Int))

/-- Binding a Python value to the `INTEGER` column `order_logs.admin_id`:
`some v` is the stored value (NULL or an integer), `none` means the INSERT
raises. -/
def pgIntParam : Val → Option (Option Int)
  | .none => some Option.none
  | .int n => some (some n)
  | .str s => (parsePgInt s).map some
  | _ => Option.none

/-- Whether a string fits a `VARCHAR(50)` column. -/
def varchar50 (s : String) : Bool :=
  s.length ≤ 50

/-- The error text of a failed integer cast (its exact wording is the
server's; no theorem of this development depends on it). -/
def pgIntCastErrorText (v : Val) : String :=
  "invalid input syntax for type integer: " ++ pyStr v

/-- The error text of a VARCHAR(50) overflow. -/
def pgVarcharErrorText : String :=
  "value too long for type character varying(50)"

/-! ## `models.update_order_status` (models.py lines 430-462)

The function body is one `with get_db_connection() as conn` block holding
four statements: the status SELECT, the status UPDATE, the audit-log
INSERT, and `conn.commit()`.  psycopg's connection context manager commits
on normal exit and rolls back when an exception escapes, so writes become
visible only at commit.  `UpdFault` names the statement at which an
external data-access fault (connectivity loss, server error) raises, with
its `str(e)`; independent of that, the INSERT itself raises when the
`admin_id` parameter does not fit its `INTEGER` column or a status does
not fit its `VARCHAR(50)` column. -/

/-- Where, if anywhere, an external data-access fault hits
`update_order_status`. -/
inductive UpdFault where
  | nofault
  | atSelect (e : String)
  | atUpdate (e : String)
  | atInsert (e : String)
  | atCommit (e : String)
deriving Repr, DecidableEq

/-- The audit-log row `update_order_status` inserts. -/
def mkOrderLog (db : DB) (oid : Nat) (adm : Option Int) (old_status new_status : String)
    (notes : Option String) : OrderLog :=
  { log_id := db.next_log_id, order_id := oid, admin_id := adm,
    action := "status_update", details := notes,
    old_status := some old_status, new_status := some new_status,
    created_at := db.clock }

/-- The database once both pending writes of `update_order_status` commit:
the order's status replaced and exactly one audit-log row appended. -/
def commitStatusUpdate (db : DB) (oid : Nat) (new_status : String) (adm : Option Int)
    (old_status : String) (notes : Option String) : DB :=
  { db with
    orders := db.orders.map (fun o =>
      if o.order_id = oid then { o with status := new_status } else o),
    order_logs := db.order_logs ++ [mkOrderLog db oid adm old_status new_status notes],
    next_log_id := db.next_log_id + 1 }

/-- `models.update_order_status(order_id, new_status, admin_id, notes)`:
returns the database after the call together with the `(success, message)`
pair the function returns.  On any exception the context manager rolls the
transaction back, so the returned database is the input database. -/
def update_order_status (db : DB) (oid : Nat) (new_status : String) (admin_id : Val)
    (notes : Option String) (f : UpdFault) : DB × Bool × String :=
  match f with
  | .atSelect e => (db, false, e)
  | f =>
    match findOrder db oid with
    | Option.none => (db, false, "Order not found")
    | some cur =>
      match f with
      | .atUpdate e => (db, false, e)
      | f =>
        let old_status := cur.status
        match f with
        | .atInsert e => (db, false, e)
        | f =>
          match pgIntParam admin_id with
          | Option.none => (db, false, pgIntCastErrorText admin_id)
          | some adm =>
            if varchar50 old_status && varchar50 new_status then
              match f with
              | .atCommit e => (db, false, e)
              | _ =>
                (commitStatusUpdate db oid new_status adm old_status notes,
                 true, "Status updated successfully")
            else
              (db, false, pgVarcharErrorText)

/-! ## Sorting, as SQL `ORDER BY` -/

/-- `ORDER BY key DESC` on timestamps: `a` comes no later than `b` when
`b`'s key is at most `a`'s. -/
def newestFirst {α : Type} (key : α → PyDateTime) (a b : α) : Prop :=
  dtLe (key b) (key a) = true

/-- `ORDER BY key` ascending on timestamps. -/
def oldestFirst {α : Type} (key : α → PyDateTime) (a b : α) : Prop :=
  dtLe (key a) (key b) = true

/-- `ORDER BY key DESC` on integers. -/
def largestFirst {α : Type} (key : α → Int) (a b : α) : Prop :=
  key b ≤ key a

/-- `ORDER BY key` ascending on integers. -/
def smallestFirst {α : Type} (key : α → Int) (a b : α) : Prop :=
  key a ≤ key b

instance {α : Type} (key : α → PyDateTime) : DecidableRel (newestFirst key) :=
  fun a b => instDecidableEqBool (dtLe (key b) (key a)) true

instance {α : Type} (key : α → PyDateTime) : DecidableRel (oldestFirst key) :=
  fun a b => instDecidableEqBool (dtLe (key a) (key b)) true

instance {α : Type} (key : α → Int) : DecidableRel (largestFirst key) :=
  fun a b => Int.decLe (key b) (key a)

instance {α : Type} (key : α → Int) : DecidableRel (smallestFirst key) :=
  fun a b => Int.decLe (key a) (key b)

/-- Rows sorted newest first on a timestamp key (SQL leaves the relative
order of equal keys unspecified; insertion sort fixes one deterministic
choice). -/
def sortNewestFirst {α : Type} (key : α → PyDateTime) (l : List α) : List α :=
  List.insertionSort (newestFirst key) l

/-- Rows sorted chronologically on a timestamp key. -/
def sortOldestFirst {α : Type} (key : α → PyDateTime) (l : List α) : List α :=
  List.insertionSort (oldestFirst key) l

/-- Rows sorted on a descending integer key. -/
def sortLargestFirst {α : Type} (key : α → Int) (l : List α) : List α :=
  List.insertionSort (largestFirst key) l

/-! ## `models.get_todays_orders` (models.py lines 152-180) -/

/-- A row of the today's-orders result: the selected order columns plus the
`COUNT(oi.order_item_id)` annotation from the `LEFT JOIN order_items`
grouped by order (the count of the order's items, `0` when it has none). -/
structure TodayOrderRow where
  order : Order
  item_count : Nat
deriving Repr, DecidableEq

/-- Annotate an order with its item count. -/
def withItemCount (db : DB) (o : Order) : TodayOrderRow :=
  { order := o, item_count := (itemsOf db o.order_id).length }

/-- `models.get_todays_orders()`.  `nowIst` is the value of `ist_now()`
(the current IST wall-clock time); `today_start` is its midnight, an
IST-aware datetime.  The SQL `WHERE` clause compares
`DATE(o.order_date AT TIME ZONE 'UTC' AT TIME ZONE 'Asia/Kolkata')` on
both sides, but the two sides have different types.  The left side is the
naive `TIMESTAMP` column: the first `AT TIME ZONE` takes the stored value
as UTC wall clock, the second renders the instant as IST wall clock, and
`DATE()` gives the IST calendar date of the stored timestamp.  The bound
`today_start` parameter, however, is timezone-aware and binds as
`timestamptz` — the instant whose naive UTC wall clock is
`utcOfIst today_start` (the previous day, 18:30).  On a `timestamptz` the
first `AT TIME ZONE 'UTC'` yields exactly that naive value, the second
reinterprets it as IST wall clock, shifting the instant back another
5 h 30 min, and `DATE()` renders the resulting `timestamptz` in the
session timezone (UTC, the realistic default; every session zone between
UTC-13 and UTC+10 gives the same date) — so the comparison date is
`(utcOfIst (utcOfIst today_start)).ymd`, the *previous* IST calendar day,
and the query matches yesterday's IST orders, not today's.  There is no
`LIMIT` clause in this query.  The surrounding `try/except` returns `[]`
on any data-access fault. -/
def get_todays_orders (db : DB) (nowIst : PyDateTime) (fault : Option String) :
    List TodayOrderRow :=
  match fault with
  | some _ => []
  | Option.none =>
    let today_start := midnightOf nowIst
    let cutoff_date := (utcOfIst (utcOfIst today_start)).ymd
    let matching := db.orders.filter
      (fun o => (istOfUtc o.order_date).ymd = cutoff_date)
    (sortNewestFirst (fun r => r.order.order_date) (matching.map (withItemCount db)))

/-- `oapp.get_todays_orders()` (oapp.py lines 79-110), the older iteration:
`WHERE DATE(o.order_date) = CURRENT_DATE` compares the stored timestamp's
calendar date with the database server's current date — no timezone
conversion — and the query ends in `LIMIT 20`. -/
def oapp_get_todays_orders (db : DB) (serverToday : Nat × Nat × Nat)
    (fault : Option String) : List TodayOrderRow :=
  match fault with
  | some _ => []
  | Option.none =>
    let matching := db.orders.filter (fun o => o.order_date.ymd = serverToday)
    ((sortNewestFirst (fun r => r.order.order_date) (matching.map (withItemCount db))).take 20)

/-! ## `models.get_all_orders` (models.py lines 182-257) -/

/-- A row of the all-orders result: the selected order columns,
`COUNT(oi.order_item_id)` and `p.payment_status`, grouped by
`(o.order_id, p.payment_status)` over `orders LEFT JOIN order_items LEFT
JOIN payments`. -/
structure AllOrderRow where
  order : Order
  item_count : Nat
  payment_status : Option String
deriving Repr, DecidableEq

/-- The result rows one order contributes to the all-orders query: the
`LEFT JOIN` to `payments` yields one group per distinct payment status of
the order (one group with NULL status when it has no payment), and
`COUNT(oi.order_item_id)` counts the non-null item sides of the joined
rows of the group. -/
def allOrderRowsOf (db : DB) (o : Order) : List AllOrderRow :=
  let is := itemsOf db o.order_id
  match paymentsOf db o.order_id with
  | [] => [{ order := o, item_count := is.length, payment_status := Option.none }]
  | ps =>
    ((ps.map (fun p => p.payment_status)).eraseDups).map (fun s =>
      { order := o,
        item_count := is.length * (ps.filter (fun p => p.payment_status = s)).length,
        payment_status := some s })

/-- The `WHERE` conditions of `get_all_orders`: an exact-status condition
is appended only when `status` is truthy, a four-way `ILIKE` condition
(name, phone, email, the order id cast to text) only when `search` is. -/
def allOrdersCond (status search : Option String) (o : Order) : Bool :=
  (match status with
   | some st => if st = "" then true else o.status = st
   | Option.none => true) &&
  (match search with
   | some q =>
     if q = "" then true
     else
       ilikeContains o.user_name q || ilikeContains o.user_phone q ||
       ilikeContains o.user_email q || ilikeContains (toString o.order_id) q
   | Option.none => true)

/-- `models.get_all_orders(page, per_page, status, search)`: the page of
joined rows ordered newest first with `LIMIT per_page OFFSET
(page-1)*per_page`, and the total from the second query
`SELECT COUNT(DISTINCT o.order_id) FROM orders o` under the same
conditions.  The `try/except` returns `([], 0)` on any data-access
fault. -/
def get_all_orders (db : DB) (page per_page : Nat) (status search : Option String)
    (fault : Option String) : List AllOrderRow × Nat :=
  match fault with
  | some _ => ([], 0)
  | Option.none =>
    let offset := (page - 1) * per_page
    let matching := db.orders.filter (allOrdersCond status search)
    let rows := sortNewestFirst (fun r => r.order.order_date)
      (matching.flatMap (allOrderRowsOf db))
    (((rows.drop offset).take per_page),
     ((matching.map (fun o => o.order_id)).eraseDups).length)

/-! ## `models.get_order_details` (models.py lines 259-339) -/

/-- A nullable string column as a Python value. -/
def optStrV : Option String → Val
  | Option.none => Val.none
  | some s => Val.str s

/-- A nullable integer column as a Python value. -/
def optNatV : Option Nat → Val
  | Option.none => Val.none
  | some n => Val.int n

/-- A nullable timestamp column as a Python value. -/
def optDtV : Option PyDateTime → Val
  | Option.none => Val.none
  | some t => Val.dt t

/-- The `o.*` columns of an order row as the dictionary `dict_row`
returns. -/
def orderRowDict (o : Order) : PyDict :=
  [("order_id", Val.int o.order_id),
   ("user_id", optNatV o.user_id),
   ("user_name", Val.str o.user_name),
   ("user_phone", Val.str o.user_phone),
   ("user_email", Val.str o.user_email),
   ("total_amount", Val.int o.total_amount),
   ("payment_mode", Val.str o.payment_mode),
   ("delivery_location", Val.str o.delivery_location),
   ("delivery_date", optDtV o.delivery_date),
   ("status", Val.str o.status),
   ("order_date", Val.dt o.order_date)]

/-- The payment columns the order-detail query selects
(`p.payment_status, p.transaction_id, p.razorpay_order_id,
p.razorpay_payment_id, p.razorpay_signature, p.payment_date`), all NULL
when the `LEFT JOIN` found no payment. -/
def paymentColsDict : Option Payment → PyDict
  | Option.none =>
    [("payment_status", Val.none), ("transaction_id", Val.none),
     ("razorpay_order_id", Val.none), ("razorpay_payment_id", Val.none),
     ("razorpay_signature", Val.none), ("payment_date", Val.none)]
  | some p =>
    [("payment_status", Val.str p.payment_status),
     ("transaction_id", optStrV p.transaction_id),
     ("razorpay_order_id", optStrV p.razorpay_order_id),
     ("razorpay_payment_id", optStrV p.razorpay_payment_id),
     ("razorpay_signature", optStrV p.razorpay_signature),
     ("payment_date", optDtV p.payment_date)]

/-- The `oi.*` columns of an order-item row. -/
def itemRowDict (oi : OrderItem) : PyDict :=
  [("order_item_id", Val.int oi.order_item_id),
   ("order_id", Val.int oi.order_id),
   ("item_type", Val.str oi.item_type),
   ("item_id", Val.int oi.item_id),
   ("item_name", Val.str oi.item_name),
   ("item_photo", optStrV oi.item_photo),
   ("quantity", Val.int oi.quantity),
   ("price", Val.int oi.price),
   ("total", Val.int oi.total)]

/-- The `CASE WHEN oi.item_type = 'service' THEN s.name WHEN oi.item_type
= 'menu' THEN m.name ELSE 'Unknown Item' END` expression: the joined
catalog row's value for a known item type (NULL when the join found no
row), the fallback text only for an unknown type. -/
def caseCatalog (oi : OrderItem) (so mo : Option CatalogItem)
    (field : CatalogItem → String) (fallback : String) : Val :=
  if oi.item_type = "service" then optStrV (so.map field)
  else if oi.item_type = "menu" then optStrV (mo.map field)
  else Val.str fallback

/-- The joined rows one order item contributes: `LEFT JOIN services` and
`LEFT JOIN menu` each contribute their matching rows (or a single NULL
row), and the `CASE` expressions compute `full_name` and
`full_description`. -/
def itemJoinDicts (db : DB) (oi : OrderItem) : List PyDict :=
  let ss := if oi.item_type = "service" then db.services.filter (fun s => s.id = oi.item_id) else []
  let ms := if oi.item_type = "menu" then db.menu.filter (fun m => m.id = oi.item_id) else []
  let sOpts := if ss.isEmpty then [Option.none] else ss.map some
  let mOpts := if ms.isEmpty then [Option.none] else ms.map some
  sOpts.flatMap (fun so => mOpts.map (fun mo =>
    itemRowDict oi ++
      [("full_name", caseCatalog oi so mo (fun c => c.name) "Unknown Item"),
       ("full_description", caseCatalog oi so mo (fun c => c.description) "")]))

/-- The `u.*` columns of a user row. -/
def userRowDict (u : User) : PyDict :=
  [("id", Val.int u.id),
   ("full_name", Val.str u.full_name),
   ("phone", Val.str u.phone),
   ("email", Val.str u.email),
   ("created_at", Val.dt u.created_at),
   ("last_login", optDtV u.last_login)]

/-- The `a.*` columns of an address row (NULL-filled when the `LEFT JOIN`
found no default address). -/
def addressColsDict : Option Address → PyDict
  | Option.none =>
    [("address_id", Val.none), ("address_line1", Val.none), ("city", Val.none),
     ("state", Val.none), ("is_default", Val.none),
     ("latitude", Val.none), ("longitude", Val.none)]
  | some a =>
    [("address_id", Val.int a.address_id),
     ("address_line1", Val.str a.address_line1),
     ("city", Val.str a.city),
     ("state", Val.str a.state),
     ("is_default", Val.bool a.is_default),
     ("latitude", optStrV a.latitude),
     ("longitude", optStrV a.longitude)]

/-- A row of the `order_logs` table as a dictionary. -/
def logRowDict (l : OrderLog) : PyDict :=
  [("log_id", Val.int l.log_id),
   ("order_id", Val.int l.order_id),
   ("admin_id", match l.admin_id with | Option.none => Val.none | some n => Val.int n),
   ("action", Val.str l.action),
   ("details", optStrV l.details),
   ("old_status", optStrV l.old_status),
   ("new_status", optStrV l.new_status),
   ("created_at", Val.dt l.created_at)]

/-- The customer sub-query of `get_order_details`: `SELECT u.*, a.* FROM
users u LEFT JOIN addresses a ON u.id = a.user_id AND a.is_default = TRUE
WHERE u.id = %s` with `fetchone()`. -/
def customerJoinDict (db : DB) (uid : Nat) : Option PyDict :=
  ((db.users.filter (fun u => u.id = uid)).flatMap (fun u =>
    match db.addresses.filter (fun a => a.user_id = uid && a.is_default) with
    | [] => [userRowDict u ++ addressColsDict Option.none]
    | as => as.map (fun a => userRowDict u ++ addressColsDict (some a)))).head?

/-- `models.get_order_details(order_id)`: `None` when the order id has no
row (and on any data-access fault, which the `try/except` also turns into
`None`); otherwise the dictionary whose keys are exactly `order`, `items`,
`customer` and `logs` — the function builds no `payment` key, the payment
columns are merged into the `order` row by the `LEFT JOIN`. -/
def get_order_details (db : DB) (oid : Nat) (fault : Option String) : Option PyDict :=
  match fault with
  | some _ => Option.none
  | Option.none =>
    let orderRows := (db.orders.filter (fun o => o.order_id = oid)).flatMap (fun o =>
      match paymentsOf db o.order_id with
      | [] => [orderRowDict o ++ paymentColsDict Option.none]
      | ps => ps.map (fun p => orderRowDict o ++ paymentColsDict (some p)))
    match orderRows.head? with
    | Option.none => Option.none
    | some orderD =>
      let items := (List.insertionSort (smallestFirst (fun oi : OrderItem => (oi.order_item_id : Int)))
        (itemsOf db oid)).flatMap (itemJoinDicts db)
      let customer : Val :=
        match dictGet orderD "user_id" Val.none with
        | Val.int n =>
          if n ≠ 0 then
            match customerJoinDict db n.toNat with
            | some d => Val.dict d
            | Option.none => Val.none
          else Val.none
        | _ => Val.none
      let logs := (sortNewestFirst (fun l : OrderLog => l.created_at)
        (db.order_logs.filter (fun l => l.order_id = oid))).map logRowDict
      some [("order", Val.dict orderD),
            ("items", Val.list (items.map Val.dict)),
            ("customer", customer),
            ("logs", Val.list (logs.map Val.dict))]

/-! ## `models.get_order_statistics` (models.py lines 341-428)

models.py imports only the `datetime` class from the `datetime` module
(line 4) and only `DATABASE_URL`, the Cloudinary keys, `ist_now`, `to_ist`
and `format_ist_datetime` from `config` (line 12).  The names bound at
module level in models.py are listed below; `timedelta`, `UTC_TIMEZONE`
and `IST_TIMEZONE` are not among them, so evaluating
`now - timedelta(days=7)` (the `week` branch) or
`datetime.min.replace(tzinfo=UTC_TIMEZONE).astimezone(IST_TIMEZONE)` (the
`all` branch) raises `NameError`, which the surrounding `try/except`
turns into the empty dictionary `{}`. -/

/-- The module-level names of models.py: its imports (lines 2-15) and its
own definitions. -/
def modelsModuleNames : List String :=
  ["os", "sys", "datetime", "traceback", "cloudinary",
   "DATABASE_URL", "CLOUDINARY_CLOUD_NAME", "CLOUDINARY_API_KEY",
   "CLOUDINARY_API_SECRET", "ist_now", "to_ist", "format_ist_datetime",
   "psycopg", "dict_row",
   "get_db_connection", "init_admin_tables", "get_todays_orders",
   "get_all_orders", "get_order_details", "get_order_statistics",
   "update_order_status", "get_customers", "get_customer_details"]

/-- Whether a global name resolves in models.py. -/
def modelsHasName (n : String) : Bool :=
  modelsModuleNames.contains n

/-- The `GROUP BY` granularity of the statistics timeline:
`DATE_TRUNC('hour', order_date)`, `DATE(order_date)` or
`DATE_TRUNC('month', order_date)`. -/
inductive BucketTrunc where
  | hour
  | date
  | month
deriving Repr, DecidableEq

/-- The bucket key of a stored timestamp under a granularity (a calendar
date is represented by its midnight). -/
def truncKey : BucketTrunc → PyDateTime → PyDateTime
  | .hour, t => { t with minute := 0, second := 0, micro := 0 }
  | .date, t => midnightOf t
  | .month, t => firstOfMonth t

/-- A row of the timeline query: bucket, `COUNT(*)`, `SUM(total_amount)`
(the group is non-empty, so the sum is never NULL). -/
structure TimelineBucket where
  period : PyDateTime
  order_count : Nat
  total_revenue : Int
deriving Repr, DecidableEq

/-- A row of the top-items query. -/
structure TopItemRow where
  item_name : String
  item_type : String
  total_quantity : Int
  total_revenue : Int
deriving Repr, DecidableEq

/-- A row of the status-distribution query. -/
structure StatusCount where
  status : String
  count : Nat
deriving Repr, DecidableEq

/-- The totals query: `COUNT(*)`, `SUM(total_amount)`,
`AVG(total_amount)`; the SQL aggregates are NULL over an empty window
(this query has no `COALESCE`). -/
structure StatTotals where
  total_orders : Nat
  total_revenue : Option Int
  avg_order_value : Option Rat
deriving Repr, DecidableEq

/-- The dictionary `models.get_order_statistics` returns on success. -/
structure OrderStats where
  orders_timeline : List TimelineBucket
  top_items : List TopItemRow
  status_distribution : List StatusCount
  totals : StatTotals
deriving Repr, DecidableEq

/-- The four aggregate queries of `get_order_statistics` over the window
`[start, endT]`.  The window bounds are IST wall-clock values from
`ist_now()`, so the stored-UTC `order_date` is carried to IST for the
`BETWEEN` comparison (timestamp-against-timestamptz comparison happens on
instants); the `GROUP BY` buckets, however, truncate the stored timestamp
itself.  Group rows appear in first-encounter order where the SQL leaves
the order unspecified, and the timeline is `ORDER BY period`. -/
def statsFor (db : DB) (start endT : PyDateTime) (bt : BucketTrunc) : OrderStats :=
  let win := db.orders.filter (fun o => dtBetween (istOfUtc o.order_date) start endT)
  let keys := (win.map (fun o => truncKey bt o.order_date)).eraseDups
  let timeline := (List.insertionSort (oldestFirst (fun k : PyDateTime => k)) keys).map
    (fun k =>
      let g := win.filter (fun o => truncKey bt o.order_date = k)
      { period := k, order_count := g.length,
        total_revenue := (g.map (fun o => o.total_amount)).sum })
  let joined := db.order_items.flatMap (fun oi =>
    (win.filter (fun o => o.order_id = oi.order_id)).map (fun _ => oi))
  let ikeys := (joined.map (fun oi => (oi.item_name, oi.item_type))).eraseDups
  let igroups := ikeys.map (fun k =>
    let g := joined.filter (fun oi => (oi.item_name, oi.item_type) = k)
    { item_name := k.1, item_type := k.2,
      total_quantity := (g.map (fun oi => oi.quantity)).sum,
      total_revenue := (g.map (fun oi => oi.total)).sum : TopItemRow })
  let top_items := (List.insertionSort
    (largestFirst (fun r : TopItemRow => r.total_quantity)) igroups).take 10
  let skeys := (win.map (fun o => o.status)).eraseDups
  let status_distribution := skeys.map (fun s =>
    { status := s, count := (win.filter (fun o => o.status = s)).length })
  let totalRev := (win.map (fun o => o.total_amount)).sum
  { orders_timeline := timeline,
    top_items := top_items,
    status_distribution := status_distribution,
    totals :=
      { total_orders := win.length,
        total_revenue := if win.isEmpty then Option.none else some totalRev,
        avg_order_value :=
          if win.isEmpty then Option.none
          else some ((totalRev : Rat) / (win.length : Rat)) } }

/-- `models.get_order_statistics(time_period)`.  `nowIst` is `ist_now()`.
`none` models the `except` branch returning `{}`: it is reached on an
external data-access fault, and also — intrinsically — on the `week` and
`all` branches, whose date arithmetic references the unbound names
`timedelta` respectively `UTC_TIMEZONE`/`IST_TIMEZONE` and therefore
raises `NameError` before any query runs. -/
def get_order_statistics (db : DB) (nowIst : PyDateTime) (time_period : String)
    (fault : Option String) : Option OrderStats :=
  match fault with
  | some _ => Option.none
  | Option.none =>
    if time_period = "today" then
      some (statsFor db (midnightOf nowIst) nowIst .hour)
    else if time_period = "week" then
      if modelsHasName "timedelta" then
        some (statsFor db (dtSubDays nowIst 7) nowIst .date)
      else Option.none
    else if time_period = "month" then
      some (statsFor db (firstOfMonth nowIst) nowIst .date)
    else
      if modelsHasName "UTC_TIMEZONE" && modelsHasName "IST_TIMEZONE" then
        some (statsFor db pyDatetimeMin nowIst .month)
      else Option.none

/-! ## `models.get_customers` and `models.get_customer_details`
(models.py lines 464-573) -/

/-- A row of the customers query: `u.*` plus `COUNT(o.order_id)`,
`SUM(o.total_amount)`, `MAX(o.order_date)` and the default-address
columns, grouped by `(u.id, a.address_line1, a.city, a.state)` over
`users LEFT JOIN orders LEFT JOIN addresses (is_default)`. -/
structure CustomerRow where
  user : User
  total_orders : Nat
  total_spent : Option Int
  last_order_date : Option PyDateTime
  address_line1 : Option String
  city : Option String
  state : Option String
deriving Repr, DecidableEq

/-- The latest of a list of timestamps. -/
def maxDate : List PyDateTime → Option PyDateTime
  | [] => Option.none
  | t :: ts =>
    match maxDate ts with
    | Option.none => some t
    | some m => some (if dtLe t m then m else t)

/-- The groups one user contributes to the customers query: one group per
distinct default-address key (one NULL group when the user has no default
address); the join multiplies each of the user's orders by the `m` default
addresses sharing the group's key, so `COUNT` and `SUM` scale by `m`. -/
def customerRowsOf (db : DB) (u : User) : List CustomerRow :=
  let os := db.orders.filter (fun o => o.user_id = some u.id)
  let mk (key : Option (String × String × String)) (m : Nat) : CustomerRow :=
    { user := u,
      total_orders := os.length * m,
      total_spent :=
        if os.isEmpty then Option.none
        else some ((os.map (fun o => o.total_amount)).sum * m),
      last_order_date := maxDate (os.map (fun o => o.order_date)),
      address_line1 := key.map (fun k => k.1),
      city := key.map (fun k => k.2.1),
      state := key.map (fun k => k.2.2) }
  match db.addresses.filter (fun a => a.user_id = u.id && a.is_default) with
  | [] => [mk Option.none 1]
  | as =>
    ((as.map (fun a => (a.address_line1, a.city, a.state))).eraseDups).map (fun k =>
      mk (some k) ((as.filter (fun a => (a.address_line1, a.city, a.state) = k)).length))

/-- The search condition of `get_customers`: a three-way `ILIKE` over
name, phone and email, appended only when `search` is truthy. -/
def customersCond (search : Option String) (u : User) : Bool :=
  match search with
  | some q =>
    if q = "" then true
    else
      ilikeContains u.full_name q || ilikeContains u.phone q ||
      ilikeContains u.email q
  | Option.none => true

/-- `models.get_customers(page, per_page, search)`: the page of grouped
rows ordered by account creation time descending, and the total from the
second query `SELECT COUNT(*) FROM users` under the same condition.  The
`try/except` returns `([], 0)` on any data-access fault. -/
def get_customers (db : DB) (page per_page : Nat) (search : Option String)
    (fault : Option String) : List CustomerRow × Nat :=
  match fault with
  | some _ => ([], 0)
  | Option.none =>
    let offset := (page - 1) * per_page
    let matching := db.users.filter (customersCond search)
    let rows := sortNewestFirst (fun r : CustomerRow => r.user.created_at)
      (matching.flatMap (customerRowsOf db))
    (((rows.drop offset).take per_page), matching.length)

/-- `ORDER BY is_default DESC` on addresses. -/
def defaultFirst (a b : Address) : Prop :=
  b.is_default.toNat ≤ a.is_default.toNat

instance : DecidableRel defaultFirst :=
  fun a b => Nat.decLe b.is_default.toNat a.is_default.toNat

/-- The stats row of `get_customer_details`: `COUNT(*)`,
`SUM(total_amount) AS total_spent`, `AVG(total_amount)`, the aggregates
NULL when the user has no orders. -/
structure CustomerStats where
  total_orders : Nat
  total_spent : Option Int
  avg_order_value : Option Rat
deriving Repr, DecidableEq

/-- The dictionary `models.get_customer_details` returns on success. -/
structure CustomerDetails where
  user : User
  addresses : List Address
  orders : List Order
  stats : CustomerStats
deriving Repr, DecidableEq

/-- `models.get_customer_details(user_id)`: the user row, all addresses
default-first, the 10 most recent orders, and the count/sum/avg stats over
all the user's orders.  `None` when the user id has no row and on any
data-access fault. -/
def get_customer_details (db : DB) (uid : Nat) (fault : Option String) :
    Option CustomerDetails :=
  match fault with
  | some _ => Option.none
  | Option.none =>
    match (db.users.filter (fun u => u.id = uid)).head? with
    | Option.none => Option.none
    | some u =>
      let addrs := List.insertionSort defaultFirst
        (db.addresses.filter (fun a => a.user_id = uid))
      let os := db.orders.filter (fun o => o.user_id = some uid)
      let recent := (sortNewestFirst (fun o : Order => o.order_date) os).take 10
      let totalSpent := (os.map (fun o => o.total_amount)).sum
      some
        { user := u, addresses := addrs, orders := recent,
          stats :=
            { total_orders := os.length,
              total_spent := if os.isEmpty then Option.none else some totalSpent,
              avg_order_value :=
                if os.isEmpty then Option.none
                else some ((totalSpent : Rat) / (os.length : Rat)) } }

/-! ## Formatting helpers (`config.format_ist_datetime`,
`utils.format_currency`, strftime) -/

/-- A number zero-padded to two digits (`%d`, `%I`, `%M`). -/
def pad2 (n : Nat) : String :=
  if n < 10 then "0" ++ toString n else toString n

/-- `%b`: the abbreviated month name. -/
def monthAbbr (m : Nat) : String :=
  (["Jan", "Feb", "Mar", "Apr", "May", "Jun",
    "Jul", "Aug", "Sep", "Oct", "Nov", "Dec"].getD (m - 1) "")

/-- `%I`: the hour on the 12-hour clock. -/
def hour12 (h : Nat) : Nat :=
  if h % 12 = 0 then 12 else h % 12

/-- `%p`: AM or PM. -/
def ampm (h : Nat) : String :=
  if h < 12 then "AM" else "PM"

/-- `strftime("%d %b %I:%M %p")`, the timeline-chart label format of
`utils.prepare_chart_data`. -/
def strftimeChartLabel (t : PyDateTime) : String :=
  pad2 t.day ++ " " ++ monthAbbr t.month ++ " " ++ pad2 (hour12 t.hour) ++ ":" ++
    pad2 t.minute ++ " " ++ ampm t.hour

/-- `strftime("%d %b %Y, %I:%M %p")`, the default format of
`config.format_ist_datetime`. -/
def strftimeIst (t : PyDateTime) : String :=
  pad2 t.day ++ " " ++ monthAbbr t.month ++ " " ++ toString t.year ++ ", " ++
    pad2 (hour12 t.hour) ++ ":" ++ pad2 t.minute ++ " " ++ ampm t.hour

/-- `config.format_ist_datetime(x)`: a naive stored timestamp is taken as
UTC, converted to IST and formatted; every failure inside is caught and
yields the empty string, so a non-datetime argument formats to `""`. -/
def format_ist_datetime (v : Val) : String :=
  match v with
  | Val.dt t => strftimeIst (istOfUtc t)
  | _ => ""

/-- Decimal digits grouped in threes with commas, as Python's
format-specifier comma does for the integer part. -/
def commaGroupGo : Nat → List Char → List Char
  | _, [] => []
  | k, c :: cs =>
    if k % 3 = 0 && k ≠ 0 then c :: ',' :: commaGroupGo (k - 1) cs
    else c :: commaGroupGo (k - 1) cs

/-- A natural number with thousands separators. -/
def commaNat (n : Nat) : String :=
  let ds := Nat.toDigits 10 n
  String.mk ((commaGroupGo (ds.length - 1) ds))

/-- Python `f"{x:,.2f}"` on an exact rational: sign, comma-grouped integer
part, two fractional digits (rounding half up; the claims of this
development only format integral amounts, where no rounding occurs). -/
def moneyFmt (q : Rat) : String :=
  let a := |q|
  let cents := (a * 100 + 1 / 2).floor.toNat
  (if q < 0 then "-" else "") ++ commaNat (cents / 100) ++ "." ++ pad2 (cents % 100)

/-- `utils.format_currency(amount)`: `None` and every failing `float()`
conversion yield the zero string. -/
def format_currency (v : Val) : String :=
  match v with
  | Val.none => "₹0.00"
  | v =>
    match pyFloat v with
    | some q => "₹" ++ moneyFmt q
    | Option.none => "₹0.00"

/-- `utils.get_cloudinary_image_url(public_id)`: a falsy or
non-`http`-prefixed value yields the default image URL (a non-string
raises inside and the `except` also yields the default). -/
def get_cloudinary_image_url (v : Val) : String :=
  match v with
  | Val.str s =>
    if s = "" then "https://res.cloudinary.com/demo/image/upload/v1633427556/default_image.jpg"
    else if s.startsWith "http" then s
    else "https://res.cloudinary.com/demo/image/upload/v1633427556/default_image.jpg"
  | _ => "https://res.cloudinary.com/demo/image/upload/v1633427556/default_image.jpg"

/-! ## `utils.prepare_chart_data` (utils.py lines 74-163) -/

/-- The timeline chart: parallel label, order-count and revenue arrays. -/
structure TimelineChart where
  labels : List String
  orders : List Val
  revenue : List Rat

/-- The top-items chart: parallel label, quantity and revenue arrays. -/
structure ItemsChart where
  labels : List String
  quantities : List Val
  revenues : List Rat

/-- The status-distribution chart: parallel label, count and colour
arrays. -/
structure StatusChart where
  labels : List String
  values : List Val
  colors : List String

/-- The three-chart dictionary `prepare_chart_data` returns. -/
structure ChartData where
  timeline : TimelineChart
  items : ItemsChart
  status : StatusChart

/-- The all-empty structure the `except` branch of `prepare_chart_data`
returns. -/
def emptyChartData : ChartData :=
  { timeline := { labels := [], orders := [], revenue := [] },
    items := { labels := [], quantities := [], revenues := [] },
    status := { labels := [], values := [], colors := [] } }

/-- The label of one timeline row: a datetime period is formatted with
`strftime("%d %b %I:%M %p")`, anything else (including a missing period,
`None`) is `str(period)`. -/
def timelineLabel (row : PyDict) : String :=
  match dictGet row "period" Val.none with
  | Val.dt t => strftimeChartLabel t
  | v => pyStr v

/-- The timeline loop of `prepare_chart_data`: one label, one raw
`order_count` and one `float(total_revenue or 0)` per row, `none` when a
revenue conversion raises. -/
def timelinePass : List PyDict → Option (List String × List Val × List Rat)
  | [] => some ([], [], [])
  | r :: rs =>
    match pyFloat (pyOr (dictGet r "total_revenue" (Val.int 0)) (Val.int 0)) with
    | Option.none => Option.none
    | some rev =>
      (timelinePass rs).map (fun p =>
        (timelineLabel r :: p.1, dictGet r "order_count" (Val.int 0) :: p.2.1,
         rev :: p.2.2))

/-- The top-items loop: `item_name[:20]` plus an ellipsis marker for long
names (a non-string name raises), the raw `total_quantity`, and
`float(total_revenue or 0)`. -/
def itemsPass : List PyDict → Option (List String × List Val × List Rat)
  | [] => some ([], [], [])
  | r :: rs =>
    match dictGet r "item_name" (Val.str "Unknown") with
    | Val.str name =>
      let label := name.take 20 ++ (if name.length > 20 then "..." else "")
      match pyFloat (pyOr (dictGet r "total_revenue" (Val.int 0)) (Val.int 0)) with
      | Option.none => Option.none
      | some rev =>
        (itemsPass rs).map (fun p =>
          (label :: p.1, dictGet r "total_quantity" (Val.int 0) :: p.2.1, rev :: p.2.2))
    | _ => Option.none

/-- The status loop: one `status.title()` label (a non-string status
raises) and one raw count per row. -/
def statusPass : List PyDict → Option (List String × List Val)
  | [] => some ([], [])
  | r :: rs =>
    match dictGet r "status" (Val.str "unknown") with
    | Val.str s =>
      (statusPass rs).map (fun p =>
        (pyTitle s :: p.1, dictGet r "count" (Val.int 0) :: p.2))
    | _ => Option.none

/-- The fixed status-to-colour table of `prepare_chart_data`. -/
def status_colors : List (String × String) :=
  [("pending", "#ffc107"), ("confirmed", "#17a2b8"), ("processing", "#007bff"),
   ("shipped", "#6f42c1"), ("delivered", "#28a745"), ("cancelled", "#dc3545")]

/-- `status_colors.get(label.lower(), '#6c757d')`: the colour of one chart
label, with the fixed fallback for a status not in the table. -/
def statusColorOf (label : String) : String :=
  ((status_colors.find? (fun kv => kv.1 = pyLower label)).map Prod.snd).getD "#6c757d"

/-- The body of `prepare_chart_data` up to its `except`: the three loops
in source order, the timeline arrays truncated to 20 entries when more
were built, the item arrays to 10, and the colour array computed from the
status labels.  `none` means some step raised. -/
def prepare_chart_data_core (orders_data top_items status_data : List PyDict) :
    Option ChartData :=
  (timelinePass orders_data).bind (fun tl =>
    let tl := if tl.1.length > 20 then (tl.1.take 20, tl.2.1.take 20, tl.2.2.take 20) else tl
    (itemsPass top_items).bind (fun it =>
      let it := if it.1.length > 10 then (it.1.take 10, it.2.1.take 10, it.2.2.take 10) else it
      (statusPass status_data).map (fun st =>
        { timeline := { labels := tl.1, orders := tl.2.1, revenue := tl.2.2 },
          items := { labels := it.1, quantities := it.2.1, revenues := it.2.2 },
          status := { labels := st.1, values := st.2,
                      colors := st.1.map statusColorOf } })))

/-- `utils.prepare_chart_data(orders_data, top_items, status_data)`: the
shaped charts, or the all-empty structure when any exception occurred
during shaping. -/
def prepare_chart_data (orders_data top_items status_data : List PyDict) : ChartData :=
  (prepare_chart_data_core orders_data top_items status_data).getD emptyChartData

/-! ## Route handlers (`app.py`) -/

/-- The JSON failure envelope `jsonify({'success': False, 'message': m})`. -/
def jsonFail (msg : String) : PyDict :=
  [("success", Val.bool false), ("message", Val.str msg)]

/-- A Python subscript `d[k]` in an `Except` carrying `str(e)` of the
raised exception: `str(KeyError('payment'))` is `"'payment'"`. -/
def getKey (d : PyDict) (k : String) : Except String Val :=
  match dictFind d k with
  | some v => Except.ok v
  | Option.none => Except.error ("'" ++ k ++ "'")

/-- The dictionary behind a `Val.dict` (every place the route reads one,
`get_order_details` put a dictionary there). -/
def valAsDict : Val → PyDict
  | Val.dict d => d
  | _ => []

/-- The list behind a `Val.list`. -/
def valAsList : Val → List Val
  | Val.list xs => xs
  | _ => []

/-- The currency-formatting step of the route's item loop: add
`price_formatted` and `total_formatted`. -/
def fmtItemStep (item : PyDict) : PyDict :=
  dictSet (dictSet item "price_formatted"
      (Val.str (format_currency (dictGet item "price" (Val.int 0)))))
    "total_formatted" (Val.str (format_currency (dictGet item "total" (Val.int 0))))

/-- The Cloudinary step of the route's item loop: add `item_photo_url`
from `item_photo` (the folder argument does not affect the result). -/
def photoItemStep (item : PyDict) : PyDict :=
  if pyTruthy (dictGet item "item_photo" Val.none) then
    dictSet item "item_photo_url"
      (Val.str (get_cloudinary_image_url (dictGet item "item_photo" Val.none)))
  else
    dictSet item "item_photo_url" (Val.str (get_cloudinary_image_url Val.none))

/-- The body of the `GET /admin/order/<order_id>` handler
(`app.admin_order_details`, app.py lines 263-320) after the login gate,
with its `try` block as an `Except`: not-found short-circuits to the
failure envelope; otherwise the order dates and amounts are formatted,
the item dictionaries annotated, and the response dictionary is built by
looking up the `order`, `items`, `customer`, `payment` and `logs` keys of
what `get_order_details` returned. -/
def admin_order_details_body (db : DB) (oid : Nat) (fault : Option String) :
    Except String PyDict := do
  match get_order_details db oid fault with
  | Option.none => return jsonFail "Order not found"
  | some order_data =>
    let o := valAsDict (dictGet order_data "order" Val.none)
    let o :=
      if pyTruthy (dictGet o "order_date" Val.none) then
        dictSet o "order_date_formatted"
          (Val.str (format_ist_datetime (dictGet o "order_date" Val.none)))
      else o
    let o :=
      if pyTruthy (dictGet o "delivery_date" Val.none) then
        dictSet o "delivery_date_formatted"
          (Val.str (format_ist_datetime (dictGet o "delivery_date" Val.none)))
      else o
    let items := (valAsList (dictGet order_data "items" Val.none)).map
      (fun v => Val.dict (fmtItemStep (valAsDict v)))
    let o := dictSet o "total_amount_formatted"
      (Val.str (format_currency (dictGet o "total_amount" (Val.int 0))))
    let items := items.map (fun v => Val.dict (photoItemStep (valAsDict v)))
    let order_data := dictSet (dictSet order_data "order" (Val.dict o))
      "items" (Val.list items)
    let orderV ← getKey order_data "order"
    let itemsV ← getKey order_data "items"
    let customerV ← getKey order_data "customer"
    let paymentV ← getKey order_data "payment"
    let logsV ← getKey order_data "logs"
    return [("success", Val.bool true), ("order", orderV), ("items", itemsV),
            ("customer", customerV), ("payment", paymentV), ("logs", logsV)]

/-- `GET /admin/order/<order_id>` for an authenticated admin session: the
`except` branch of the handler turns any raised exception into the JSON
failure envelope carrying `str(e)`. -/
def admin_order_details (db : DB) (oid : Nat) (fault : Option String) : PyDict :=
  match admin_order_details_body db oid fault with
  | Except.ok d => d
  | Except.error e => jsonFail e

/-- `POST /admin/order/<order_id>/update-status` for an authenticated
admin session (`app.admin_update_order_status`, app.py lines 437-465):
the `status` and `notes` form fields are stripped, an empty stripped
status is rejected before any query, and otherwise
`models.update_order_status` runs with `admin_id =
session.get('admin_username')` — the logged-in admin's username string.
Returns the database after the call and the JSON response. -/
def admin_update_order_status (db : DB) (oid : Nat) (form_status form_notes : String)
    (session_admin : Option String) (f : UpdFault) : DB × PyDict :=
  let new_status := pyStrip form_status
  let notes := pyStrip form_notes
  if new_status = "" then
    (db, jsonFail "Status is required")
  else
    let adminV := match session_admin with
      | some u => Val.str u
      | Option.none => Val.none
    let r := update_order_status db oid new_status adminV (some notes) f
    (r.1, [("success", Val.bool r.2.1), ("message", Val.str r.2.2)])

/-! ## Order theory of `lexLe`, for the `ORDER BY` sortedness proofs -/

theorem lexLe_total : ∀ (a b : List Nat), lexLe a b = true ∨ lexLe b a = true
  | [], _ => Or.inl rfl
  | _ :: _, [] => Or.inr rfl
  | a :: as, b :: bs => by
    rcases Nat.lt_trichotomy a b with h | h | h
    · left; simp [lexLe, h]
    · subst h
      rcases lexLe_total as bs with h2 | h2
      · left; simp [lexLe, h2]
      · right; simp [lexLe, h2]
    · right; simp [lexLe, h]

theorem lexLe_trans : ∀ (a b c : List Nat),
    lexLe a b = true → lexLe b c = true → lexLe a c = true
  | [], _, _, _, _ => rfl
  | _ :: _, [], _, hab, _ => by simp [lexLe] at hab
  | _ :: _, _ :: _, [], _, hbc => by simp [lexLe] at hbc
  | a :: as, b :: bs, c :: cs, hab, hbc => by
    simp only [lexLe] at hab hbc ⊢
    split_ifs at hab hbc ⊢ with h1 h2 h3 h4 h5 h6 <;>
      first
        | rfl
        | omega
        | (exact lexLe_trans as bs cs hab hbc)

instance {α : Type} (key : α → PyDateTime) : IsTotal α (newestFirst key) where
  total a b := lexLe_total (key b).fields (key a).fields

instance {α : Type} (key : α → PyDateTime) : IsTrans α (newestFirst key) where
  trans a b c hab hbc := lexLe_trans (key c).fields (key b).fields (key a).fields hbc hab

/-! ## Concrete fixtures for the evaluated theorems -/

/-- A stored (UTC) timestamp: 2024-05-10 08:00:00, which is
2024-05-10 13:30 IST. -/
def exDt : PyDateTime :=
  { year := 2024, month := 5, day := 10, hour := 8, minute := 0, second := 0, micro := 0 }

/-- The matching `ist_now()` value: 2024-05-10 13:30 IST. -/
def exNowIst : PyDateTime :=
  { year := 2024, month := 5, day := 10, hour := 13, minute := 30, second := 0, micro := 0 }

/-- Order 101, status `pending`, as in the specification's example
scenario. -/
def exOrder101 : Order :=
  { order_id := 101, user_id := Option.none, user_name := "Asha", user_phone := "9876543210",
    user_email := "asha@example.com", total_amount := 450, payment_mode := "cod",
    delivery_location := "HSR Layout", delivery_date := Option.none, status := "pending",
    order_date := exDt }

/-- A database holding exactly order 101. -/
def exDb1 : DB :=
  { orders := [exOrder101], order_items := [], payments := [], users := [],
    addresses := [], services := [], menu := [], order_logs := [],
    next_log_id := 1, clock := exDt }

/-- An empty database. -/
def exDbEmpty : DB :=
  { orders := [], order_items := [], payments := [], users := [],
    addresses := [], services := [], menu := [], order_logs := [],
    next_log_id := 1, clock := exDt }

/-- The i-th of 21 orders all placed at `exDt`. -/
def exOrderAt (i : Nat) : Order :=
  { exOrder101 with order_id := 200 + i }

/-- A database holding 21 orders of the current IST day. -/
def exDb21 : DB :=
  { exDbEmpty with orders := (List.range 21).map exOrderAt }

/-- The status-distribution input of the specification's chart-shaper
example scenario. -/
def exStatusDist : List PyDict :=
  [[("status", Val.str "delivered"), ("count", Val.int 7)],
   [("status", Val.str "unknown_status"), ("count", Val.int 1)]]

/-- An order placed the previous IST day: stored 2024-05-09 08:00 UTC,
which is 2024-05-09 13:30 IST. -/
def exOrderYesterday : Order :=
  { exOrder101 with
    order_id := 150,
    order_date := { year := 2024, month := 5, day := 9, hour := 8, minute := 0,
                    second := 0, micro := 0 } }

/-- A database holding one order of the current IST day (101) and one of
the previous IST day (150). -/
def exDbTwoDays : DB :=
  { exDbEmpty with orders := [exOrder101, exOrderYesterday] }

/-- `ist_now()` one day later: 2024-05-11 13:30 IST. -/
def exNowIstNext : PyDateTime :=
  { year := 2024, month := 5, day := 11, hour := 13, minute := 30, second := 0, micro := 0 }

/-! ## Claim C1 -/

/-- Claim C1 (code bug): the claim says `updateOrderStatus` on an existing
order always returns success and appends one audit-log row carrying the
given admin identifier — its example passes `adminId="admin"`.  But
`order_logs.admin_id` is an `INTEGER` column (`init_admin_tables`,
models.py line 80), so the INSERT raises on the username string, the
transaction rolls back, and the call returns failure with the order and
log table unchanged.  With an integer admin identifier the claimed
behaviour does hold: status set, exactly one log row appended with
`old_status = "pending"`, `new_status = "processing"` and the notes. -/
theorem C1_update_admin_string_insert_fails :
    (update_order_status exDb1 101 "processing" (Val.str "admin")
        (some "confirmed by phone") UpdFault.nofault).2.1 = false
  ∧ (update_order_status exDb1 101 "processing" (Val.str "admin")
        (some "confirmed by phone") UpdFault.nofault).1 = exDb1
  ∧ (findOrder exDb1 101).isSome = true
  ∧ (update_order_status exDb1 101 "processing" (Val.int 7)
        (some "confirmed by phone") UpdFault.nofault).2 =
      (true, "Status updated successfully")
  ∧ (update_order_status exDb1 101 "processing" (Val.int 7)
        (some "confirmed by phone") UpdFault.nofault).1.order_logs =
      [{ log_id := 1, order_id := 101, admin_id := some 7, action := "status_update",
         details := some "confirmed by phone", old_status := some "pending",
         new_status := some "processing", created_at := exDt }]
  ∧ (findOrder (update_order_status exDb1 101 "processing" (Val.int 7)
        (some "confirmed by phone") UpdFault.nofault).1 101).map (fun o => o.status) =
      some "processing" := by
  refine ⟨rfl, rfl, rfl, rfl, ?_, rfl⟩
  decide

/-! ## Claim C2 -/

/-- Claim C2 (confirmed): the status update and the audit-log insert are
one atomic unit.  In every execution — whatever statement a data-access
fault hits, and whether or not the audit-log insert itself raises — either
the call succeeds and the resulting database is exactly the input database
with the order's status replaced and one audit-log row appended
(`commitStatusUpdate`), or the call fails and the database is unchanged. -/
theorem C2_update_status_atomic (db : DB) (oid : Nat) (s : String) (adm : Val)
    (notes : Option String) (f : UpdFault) :
    (∃ old a, findOrder db oid = some old ∧ pgIntParam adm = some a ∧
        (update_order_status db oid s adm notes f).2.1 = true ∧
        (update_order_status db oid s adm notes f).1 =
          commitStatusUpdate db oid s a old.status notes)
  ∨ ((update_order_status db oid s adm notes f).2.1 = false ∧
        (update_order_status db oid s adm notes f).1 = db) := by
  cases f with
  | atSelect e => exact Or.inr ⟨rfl, rfl⟩
  | atUpdate e =>
    rcases h : findOrder db oid with _ | old <;>
      simp only [update_order_status, h] <;> exact Or.inr ⟨by trivial, by trivial⟩
  | atInsert e =>
    rcases h : findOrder db oid with _ | old <;>
      simp only [update_order_status, h] <;> exact Or.inr ⟨by trivial, by trivial⟩
  | atCommit e =>
    rcases h : findOrder db oid with _ | old <;> simp only [update_order_status, h]
    · exact Or.inr ⟨by trivial, by trivial⟩
    · rcases h2 : pgIntParam adm with _ | a <;> simp only [h2]
      · exact Or.inr ⟨by trivial, by trivial⟩
      · by_cases h3 : (varchar50 old.status && varchar50 s) = true <;> simp only [h3]
        · exact Or.inr ⟨by trivial, by trivial⟩
        · simp only [Bool.false_eq_true, if_false]
          exact Or.inr ⟨by trivial, by trivial⟩
  | nofault =>
    rcases h : findOrder db oid with _ | old <;> simp only [update_order_status, h]
    · exact Or.inr ⟨by trivial, by trivial⟩
    · rcases h2 : pgIntParam adm with _ | a <;> simp only [h2]
      · exact Or.inr ⟨by trivial, by trivial⟩
      · by_cases h3 : (varchar50 old.status && varchar50 s) = true <;> simp only [h3]
        · refine Or.inl ⟨old, a, ?_, ?_, ?_, ?_⟩ <;> trivial
        · simp only [Bool.false_eq_true, if_false]
          exact Or.inr ⟨by trivial, by trivial⟩

/-! ## Claim C3 -/

/-- Claim C3 (confirmed): `updateOrderStatus` on a non-existent order id
returns failure with the message `Order not found` and performs no
writes — the database is returned unchanged. -/
theorem C3_update_status_not_found (db : DB) (oid : Nat) (s : String) (adm : Val)
    (notes : Option String) (h : findOrder db oid = Option.none) :
    update_order_status db oid s adm notes UpdFault.nofault =
      (db, false, "Order not found") := by
  simp only [update_order_status, h]

/-- Witness for C3: in the empty database order 999 does not exist, and
the call returns the not-found failure with the database unchanged. -/
theorem C3_update_status_not_found_witness :
    findOrder exDbEmpty 999 = Option.none
  ∧ update_order_status exDbEmpty 999 "processing" Val.none (some "n")
        UpdFault.nofault =
      (exDbEmpty, false, "Order not found") :=
  ⟨rfl, C3_update_status_not_found exDbEmpty 999 "processing" Val.none (some "n") rfl⟩

/-! ## Claim C4 -/

/-- Claim C4 (code bug): the claim says `GET /admin/order/101` returns
`success = true` with the keys `order`, `items`, `customer`, `payment`
and `logs` whenever order 101 exists.  But `models.get_order_details`
returns a dictionary whose keys are only `order`, `items`, `customer` and
`logs` (the payment columns are merged into the order row by its `LEFT
JOIN`), so the handler's `order_data['payment']` raises `KeyError` and its
`except` branch answers `{'success': False, 'message': "'payment'"}` for
every existing order; the `Order not found` envelope is indeed reserved
for a missing id. -/
theorem C4_order_details_route_keyerror :
    (get_order_details exDb1 101 Option.none).isSome = true
  ∧ ((get_order_details exDb1 101 Option.none).getD []).map Prod.fst =
      ["order", "items", "customer", "logs"]
  ∧ admin_order_details exDb1 101 Option.none = jsonFail "'payment'"
  ∧ admin_order_details exDb1 999 Option.none = jsonFail "Order not found" := by
  exact ⟨rfl, rfl, rfl, rfl⟩

/-! ## Claim C5 -/

/-- Claim C5 (code bug): the claim says every period keyword in
`{today, week, month, all}` maps to its documented window and yields the
four result sets.  models.py never imports `timedelta`, `UTC_TIMEZONE` or
`IST_TIMEZONE`, so the `week` and `all` branches of
`get_order_statistics` raise `NameError` before any query runs and the
`except` branch returns the empty dictionary; only `today` (start =
midnight of the current IST day, hour buckets) and `month` (start = first
of the current month, day buckets) behave as documented. -/
theorem C5_statistics_week_all_nameerror :
    modelsHasName "timedelta" = false
  ∧ modelsHasName "UTC_TIMEZONE" = false
  ∧ modelsHasName "IST_TIMEZONE" = false
  ∧ get_order_statistics exDb1 exNowIst "week" Option.none = Option.none
  ∧ get_order_statistics exDb1 exNowIst "all" Option.none = Option.none
  ∧ get_order_statistics exDb1 exNowIst "today" Option.none =
      some (statsFor exDb1 (midnightOf exNowIst) exNowIst BucketTrunc.hour)
  ∧ get_order_statistics exDb1 exNowIst "month" Option.none =
      some (statsFor exDb1 (firstOfMonth exNowIst) exNowIst BucketTrunc.date)
  ∧ (get_order_statistics exDb1 exNowIst "today" Option.none).isSome = true := by
  refine ⟨?_, ?_, ?_, rfl, rfl, rfl, rfl, rfl⟩ <;> decide

/-! ## Claim C6 -/

theorem timelinePass_lengths :
    ∀ (a : List PyDict) (p : List String × List Val × List Rat),
      timelinePass a = some p →
      p.1.length = a.length ∧ p.2.1.length = a.length ∧ p.2.2.length = a.length := by
  intro a
  induction a with
  | nil =>
    intro p h
    simp only [timelinePass, Option.some.injEq] at h
    subst h
    exact ⟨rfl, rfl, rfl⟩
  | cons r rs ih =>
    intro p h
    simp only [timelinePass] at h
    rcases hf : pyFloat (pyOr (dictGet r "total_revenue" (Val.int 0)) (Val.int 0)) with
      _ | rev
    · rw [hf] at h; exact absurd h (by simp)
    · rw [hf] at h
      rcases Option.map_eq_some'.mp h with ⟨q, hq, hfq⟩
      subst hfq
      obtain ⟨e1, e2, e3⟩ := ih q hq
      simp [e1, e2, e3]

theorem itemsPass_lengths :
    ∀ (b : List PyDict) (p : List String × List Val × List Rat),
      itemsPass b = some p →
      p.1.length = b.length ∧ p.2.1.length = b.length ∧ p.2.2.length = b.length := by
  intro b
  induction b with
  | nil =>
    intro p h
    simp only [itemsPass, Option.some.injEq] at h
    subst h
    exact ⟨rfl, rfl, rfl⟩
  | cons r rs ih =>
    intro p h
    simp only [itemsPass] at h
    split at h
    · split at h
      · exact absurd h (by simp)
      · rcases Option.map_eq_some'.mp h with ⟨q, hq, hfq⟩
        subst hfq
        obtain ⟨e1, e2, e3⟩ := ih q hq
        simp [e1, e2, e3]
    · exact absurd h (by simp)

theorem statusPass_lengths :
    ∀ (c : List PyDict) (p : List String × List Val),
      statusPass c = some p →
      p.1.length = c.length ∧ p.2.length = c.length := by
  intro c
  induction c with
  | nil =>
    intro p h
    simp only [statusPass, Option.some.injEq] at h
    subst h
    exact ⟨rfl, rfl⟩
  | cons r rs ih =>
    intro p h
    simp only [statusPass] at h
    split at h
    · rcases Option.map_eq_some'.mp h with ⟨q, hq, hfq⟩
      subst hfq
      obtain ⟨e1, e2⟩ := ih q hq
      simp [e1, e2]
    · exact absurd h (by simp)

/-- Claim C6 (confirmed): for every input, `prepare_chart_data` either
shaped all three inputs without an exception — and then returns the
documented three-chart structure whose timeline arrays are exactly the
first 20 of the shaped timeline series (one entry per input row), whose
item arrays are exactly the first 10 of the shaped item series, and whose
status chart carries one label, one value and one colour per status row —
or some step raised, and it returns the all-empty structure of the same
shape; it never fails. -/
theorem C6_prepare_chart_data_shape (a b c : List PyDict) :
    (prepare_chart_data_core a b c = Option.none
        ∧ prepare_chart_data a b c = emptyChartData)
  ∨ (∃ tl it st,
      timelinePass a = some tl ∧ itemsPass b = some it ∧ statusPass c = some st ∧
      tl.1.length = a.length ∧ it.1.length = b.length ∧ st.1.length = c.length ∧
      prepare_chart_data a b c =
        { timeline := { labels := tl.1.take 20, orders := tl.2.1.take 20,
                        revenue := tl.2.2.take 20 },
          items := { labels := it.1.take 10, quantities := it.2.1.take 10,
                     revenues := it.2.2.take 10 },
          status := { labels := st.1, values := st.2,
                      colors := st.1.map statusColorOf } }) := by
  rcases h1 : timelinePass a with _ | tl
  · have hc : prepare_chart_data_core a b c = Option.none := by
      simp [prepare_chart_data_core, h1]
    exact Or.inl ⟨hc, by simp [prepare_chart_data, hc, emptyChartData]⟩
  rcases h2 : itemsPass b with _ | it
  · have hc : prepare_chart_data_core a b c = Option.none := by
      simp [prepare_chart_data_core, h1, h2]
    exact Or.inl ⟨hc, by simp [prepare_chart_data, hc, emptyChartData]⟩
  rcases h3 : statusPass c with _ | st
  · have hc : prepare_chart_data_core a b c = Option.none := by
      simp [prepare_chart_data_core, h1, h2, h3]
    exact Or.inl ⟨hc, by simp [prepare_chart_data, hc, emptyChartData]⟩
  · have etl : (if tl.1.length > 20
        then (tl.1.take 20, tl.2.1.take 20, tl.2.2.take 20) else tl) =
        (tl.1.take 20, tl.2.1.take 20, tl.2.2.take 20) := by
      obtain ⟨e1, e2, e3⟩ := timelinePass_lengths a tl h1
      split_ifs with hlen
      · rfl
      · rw [List.take_of_length_le (by omega), List.take_of_length_le (by omega),
          List.take_of_length_le (by omega)]
    have eit : (if it.1.length > 10
        then (it.1.take 10, it.2.1.take 10, it.2.2.take 10) else it) =
        (it.1.take 10, it.2.1.take 10, it.2.2.take 10) := by
      obtain ⟨e1, e2, e3⟩ := itemsPass_lengths b it h2
      split_ifs with hlen
      · rfl
      · rw [List.take_of_length_le (by omega), List.take_of_length_le (by omega),
          List.take_of_length_le (by omega)]
    have hcore : prepare_chart_data_core a b c =
        some { timeline := { labels := tl.1.take 20, orders := tl.2.1.take 20,
                             revenue := tl.2.2.take 20 },
               items := { labels := it.1.take 10, quantities := it.2.1.take 10,
                          revenues := it.2.2.take 10 },
               status := { labels := st.1, values := st.2,
                           colors := st.1.map statusColorOf } } := by
      simp only [prepare_chart_data_core, h1, h2, h3, Option.some_bind, Option.map_some']
      rw [etl, eit]
    refine Or.inr ⟨tl, it, st, rfl, rfl, rfl,
      (timelinePass_lengths a tl h1).1, (itemsPass_lengths b it h2).1,
      (statusPass_lengths c st h3).1, ?_⟩
    simp [prepare_chart_data, hcore]

/-! ## Claim C7 -/

/-- Counterexample to C7 as stated: on the claim's own input the shaper
produces the label `Unknown_Status` (Python's `str.title()` capitalises
the letter after the underscore), not the claimed `Unknown_status`; the
colours are the delivered colour and the fallback colour as claimed. -/
theorem C7_status_labels_counterexample :
    (prepare_chart_data [] [] exStatusDist).status.labels ≠
      ["Delivered", "Unknown_status"]
  ∧ (prepare_chart_data [] [] exStatusDist).status.labels =
      ["Delivered", "Unknown_Status"]
  ∧ (prepare_chart_data [] [] exStatusDist).status.values = [Val.int 7, Val.int 1]
  ∧ (prepare_chart_data [] [] exStatusDist).status.colors = ["#28a745", "#6c757d"] := by
  exact ⟨by decide, rfl, rfl, rfl⟩

/-- A status-distribution row `{status: s, count: n}`. -/
def mkStatusRow (p : String × Int) : PyDict :=
  [("status", Val.str p.1), ("count", Val.int p.2)]

theorem statusPass_cons_str (s : String) (n : Int) (rest : List PyDict) :
    statusPass ([("status", Val.str s), ("count", Val.int n)] :: rest) =
      (statusPass rest).map (fun p => (pyTitle s :: p.1, Val.int n :: p.2)) := rfl

/-- Claim C7, amended (corrected): for every status-distribution input the
chart shaper emits one `str.title()`-cased label per status — so
`unknown_status` becomes `Unknown_Status`, with the letter after the
underscore capitalised — one count per status, and one colour per status
from the fixed table with the fixed fallback `#6c757d` for an
unrecognised status; on the example input the labels are
`["Delivered", "Unknown_Status"]` with the delivered colour `#28a745` and
the fallback colour. -/
theorem C7_status_chart_amended (sd : List (String × Int)) :
    statusPass (sd.map mkStatusRow) =
      some (sd.map (fun p => pyTitle p.1), sd.map (fun p => Val.int p.2))
  ∧ (prepare_chart_data [] [] (sd.map mkStatusRow)).status.labels =
      sd.map (fun p => pyTitle p.1)
  ∧ (prepare_chart_data [] [] (sd.map mkStatusRow)).status.values =
      sd.map (fun p => Val.int p.2)
  ∧ (prepare_chart_data [] [] (sd.map mkStatusRow)).status.colors =
      sd.map (fun p => statusColorOf (pyTitle p.1))
  ∧ pyTitle "unknown_status" = "Unknown_Status"
  ∧ statusColorOf (pyTitle "delivered") = "#28a745"
  ∧ statusColorOf (pyTitle "unknown_status") = "#6c757d" := by
  have hpass : statusPass (sd.map mkStatusRow) =
      some (sd.map (fun p => pyTitle p.1), sd.map (fun p => Val.int p.2)) := by
    induction sd with
    | nil => rfl
    | cons p ps ih =>
      simp only [List.map_cons, mkStatusRow]
      rw [statusPass_cons_str, ih, Option.map_some']
  have hchart : prepare_chart_data [] [] (sd.map mkStatusRow) =
      { timeline := { labels := [], orders := [], revenue := [] },
        items := { labels := [], quantities := [], revenues := [] },
        status := { labels := sd.map (fun p => pyTitle p.1),
                    values := sd.map (fun p => Val.int p.2),
                    colors := (sd.map (fun p => pyTitle p.1)).map statusColorOf } } := by
    simp only [prepare_chart_data, prepare_chart_data_core, hpass]
    rfl
  refine ⟨hpass, ?_, ?_, ?_, rfl, rfl, rfl⟩ <;>
    simp [hchart, List.map_map, Function.comp]

/-! ## Claim C8 -/

/-- Claim C8 (code bug): the claim says `getTodaysOrders` returns only
the orders of the current day in the display timezone, bounded by a fixed
maximum row count.  In `models.py` the timezone-aware `today_start`
parameter binds as `timestamptz`, so the query's double `AT TIME ZONE`
conversion shifts it back to the previous IST calendar day: at
2024-05-10 13:30 IST the comparison date evaluates to 2024-05-09, an
order placed on 2024-05-10 (IST) is not returned even though it falls on
the current IST day, and an order of 2024-05-09 (IST) is returned
instead.  Moreover the query has no `LIMIT`: called a day later, when all
21 orders of `exDb21` match the comparison date, it returns all 21 rows;
the 20-row cap exists only in the `oapp.py` variant. -/
theorem C8_todays_orders_previous_day :
    (utcOfIst (utcOfIst (midnightOf exNowIst))).ymd = (2024, 5, 9)
  ∧ (istOfUtc exOrder101.order_date).ymd = (midnightOf exNowIst).ymd
  ∧ get_todays_orders exDbTwoDays exNowIst Option.none =
      [{ order := exOrderYesterday, item_count := 0 }]
  ∧ (get_todays_orders exDb21 exNowIstNext Option.none).length = 21
  ∧ (oapp_get_todays_orders exDb21 (2024, 5, 10) Option.none).length = 20 := by
  refine ⟨rfl, rfl, ?_, ?_, ?_⟩ <;> decide

/-! ## Claim C9 -/

/-- Counterexample to C9 as stated: a data-access fault in
`get_all_orders` is not surfaced — the `except` branch returns `([], 0)`,
exactly the value a genuine success returns on an empty database, with no
error text anywhere in the result. -/
theorem C9_fault_swallowed_counterexample :
    get_all_orders exDbEmpty 1 20 Option.none Option.none
        (some "connection refused") = ([], 0)
  ∧ get_all_orders exDbEmpty 1 20 Option.none Option.none Option.none = ([], 0)
  ∧ get_todays_orders exDbEmpty exNowIst (some "connection refused") = []
  ∧ get_todays_orders exDbEmpty exNowIst Option.none = [] := by
  exact ⟨rfl, rfl, rfl, rfl⟩

/-- Claim C9, amended (corrected): of the repository operations only
`update_order_status` surfaces a data-access fault to its caller as a
failure result carrying the raw error text.  The others swallow every
fault into the same value an empty or not-found success produces:
`get_todays_orders` returns `[]`, `get_all_orders` and `get_customers`
return `([], 0)`, `get_order_details` and `get_customer_details` return
the not-found signal `None`, and `get_order_statistics` returns the empty
dictionary. -/
theorem C9_fault_surfacing_amended (db : DB) (nowIst : PyDateTime)
    (oid uid page per_page : Nat) (s tp e : String) (adm : Val)
    (status search : Option String) (notes : Option String) :
    update_order_status db oid s adm notes (UpdFault.atSelect e) = (db, false, e)
  ∧ get_todays_orders db nowIst (some e) = []
  ∧ get_all_orders db page per_page status search (some e) = ([], 0)
  ∧ get_order_details db oid (some e) = Option.none
  ∧ get_order_statistics db nowIst tp (some e) = Option.none
  ∧ get_customers db page per_page search (some e) = ([], 0)
  ∧ get_customer_details db uid (some e) = Option.none := by
  exact ⟨rfl, rfl, rfl, rfl, rfl, rfl, rfl⟩

/-! ## Claim C10 -/

/-- Claim C10 (code bug): the claim says the status-update path accepts
every non-empty string and persists it, with only an emptiness check and
no enum validation.  Three divergences/confirmations on the code: (a) the
route always passes `session['admin_username']` — a string — as
`admin_id`, whose `INTEGER` column makes the audit INSERT raise, so via
the route even the valid status `processing` is never persisted and the
call answers failure; (b) the route strips the form field first, so the
non-empty string `" "` is rejected as `Status is required` before any
query; (c) no enum membership is checked anywhere: at the models level
(with a NULL admin id) the out-of-enum status `definitely_not_a_status`
is accepted, persisted and logged. -/
theorem C10_status_validation_behaviour :
    (admin_update_order_status exDb1 101 "processing" "note" (some "admin")
        UpdFault.nofault).2 =
      jsonFail (pgIntCastErrorText (Val.str "admin"))
  ∧ (admin_update_order_status exDb1 101 "processing" "note" (some "admin")
        UpdFault.nofault).1 = exDb1
  ∧ (admin_update_order_status exDb1 101 " " "" (some "admin")
        UpdFault.nofault).2 = jsonFail "Status is required"
  ∧ (" " : String) ≠ ""
  ∧ (update_order_status exDb1 101 "definitely_not_a_status" Val.none
        (some "") UpdFault.nofault).2.1 = true
  ∧ (findOrder (update_order_status exDb1 101 "definitely_not_a_status" Val.none
        (some "") UpdFault.nofault).1 101).map (fun o => o.status) =
      some "definitely_not_a_status"
  ∧ ("definitely_not_a_status" ∈
      ["pending", "confirmed", "processing", "shipped", "delivered",
       "cancelled", "refunded"]) = False := by
  refine ⟨rfl, rfl, rfl, by decide, rfl, rfl, by simp⟩
